import Mathlib

/-!
Shallow embedding of the AssemblyAI Python SDK streaming v3 client
(`assemblyai/streaming/v3/client.py` and `assemblyai/streaming/v3/models.py`).
It covers the wire message codec (`_parse_message`, `_parse_event_type`,
pydantic `model_validate` of the event models), the inbound pump
(`_read_message` / `_handle_message`), the outbound pump (`_write_message`),
the shared error path (`_handle_error` / `_parse_error`), and the
`connect` / `disconnect` / `stream` lifecycle.

Conventions of the embedding:
* Python exceptions are modelled by `PyErr`; fallible code returns
  `Except PyErr`.
* `Json` models the result of a successful `json.loads`; `Json.obj` is the
  decoded dict, whose keys are distinct (a Python dict cannot hold
  duplicate keys, `json.loads` keeps the last occurrence).
* pydantic `model_validate` is translated field by field.  Parsing of
  datetime strings is abstracted: any JSON string (or integral number,
  an epoch) is accepted for a `datetime` field.  pydantic's lax numeric
  and boolean string-coercions are abstracted to the JSON value kinds.
  No claim settled below depends on that granularity.
* Threads are not executed; each pump loop is modelled as a function of
  the sequence of results its blocking call (queue get / socket recv)
  returns, which is exactly the information order the single consumer
  thread observes.
-/

namespace AaiStreaming

/-- Python exception kinds arising in the code paths modelled here. -/
inductive PyErr where
  | validationError
  | keyError
  | typeError
  | attributeError
  | runtimeError
  | valueError (msg : String)
  | timeoutError
  | osError
  | invalidHandshake
  deriving DecidableEq, Repr

mutual

/-- A decoded JSON value (result of a successful `json.loads`). -/
inductive Json where
  | null
  | bool (b : Bool)
  | num (q : Rat)
  | str (s : String)
  | arr (elems : JsonList)
  | obj (fields : JsonFields)
  deriving DecidableEq, Repr

/-- The elements of a decoded JSON array. -/
inductive JsonList where
  | nil
  | cons (hd : Json) (tl : JsonList)
  deriving DecidableEq, Repr

/-- The key/value pairs of a decoded dict. -/
inductive JsonFields where
  | nil
  | cons (key : String) (val : Json) (tl : JsonFields)
  deriving DecidableEq, Repr

end

/-- Lookup of a key in a decoded dict (keys are distinct, see above). -/
def JsonFields.lookup : JsonFields → String → Option Json
  | .nil, _ => none
  | .cons key v tl, k => if key == k then some v else tl.lookup k

/-- Python `key in dict`. -/
def JsonFields.hasKey : JsonFields → String → Bool
  | .nil, _ => false
  | .cons key _ tl, k => key == k || tl.hasKey k

/-- Python `key in list` for a string key: some element equals the key. -/
def JsonList.containsStr : JsonList → String → Bool
  | .nil, _ => false
  | .cons hd tl, k =>
    (match hd with | .str s => s == k | _ => false) || tl.containsStr k

/-- Python `in` on a string: substring containment. -/
def strContains (s k : String) : Bool :=
  k == "" || (s.splitOn k).length > 1

/-- Python `key in value` on a decoded JSON value: dict key membership,
list element membership, substring test on strings; `TypeError` on the
other (non-container) values. -/
def pyContains : Json → String → Except PyErr Bool
  | .obj kvs, k => .ok (kvs.hasKey k)
  | .arr xs, k => .ok (xs.containsStr k)
  | .str s, k => .ok (strContains s k)
  | _, _ => .error .typeError

/-- Python `value.get(key)`: only dicts have a `get` method
(`AttributeError` otherwise). -/
def pyGet : Json → String → Except PyErr (Option Json)
  | .obj kvs, k => .ok (kvs.lookup k)
  | _, _ => .error .attributeError

/-- Python `value[key]` with a string key: `KeyError` for a dict without
the key, `TypeError` for non-dict values. -/
def pyIndex : Json → String → Except PyErr Json
  | .obj kvs, k =>
    match kvs.lookup k with
    | some v => .ok v
    | none => .error .keyError
  | _, _ => .error .typeError

/-! ## Event models (`models.py`) and their pydantic validation -/

/-- `Word` model from `models.py`. -/
structure Word where
  start : Int
  end_ : Int
  confidence : Rat
  text : String
  word_is_final : Bool
  deriving DecidableEq, Repr

/-- `TurnEvent` model from `models.py`. -/
structure TurnEvent where
  turn_order : Int
  turn_is_formatted : Bool
  end_of_turn : Bool
  transcript : String
  end_of_turn_confidence : Rat
  words : List Word
  deriving DecidableEq, Repr

/-- `BeginEvent` model from `models.py`; `expires_at` keeps the raw wire
representation of the datetime (its parsing is abstracted). -/
structure BeginEvent where
  id : String
  expires_at : String
  deriving DecidableEq, Repr

/-- `TerminationEvent` model from `models.py`. -/
structure TerminationEvent where
  audio_duration_seconds : Option Int
  session_duration_seconds : Option Int
  deriving DecidableEq, Repr

/-- `ErrorEvent` model from `models.py`. -/
structure ErrorEvent where
  error : String
  deriving DecidableEq, Repr

/-- The `EventMessage` union from `models.py`. -/
inductive EventMessage where
  | begin (e : BeginEvent)
  | termination (e : TerminationEvent)
  | turn (e : TurnEvent)
  | error (e : ErrorEvent)
  deriving DecidableEq, Repr

/-- Required `str` field. -/
def asStr : Option Json → Except PyErr String
  | some (.str s) => .ok s
  | _ => .error .validationError

/-- Required `int` field (an integral JSON number). -/
def asInt : Option Json → Except PyErr Int
  | some (.num q) =>
    if q.den = 1 then .ok q.num else .error .validationError
  | _ => .error .validationError

/-- Required `bool` field. -/
def asBool : Option Json → Except PyErr Bool
  | some (.bool b) => .ok b
  | _ => .error .validationError

/-- Required `float` field (any JSON number). -/
def asNum : Option Json → Except PyErr Rat
  | some (.num q) => .ok q
  | _ => .error .validationError

/-- `Optional[int]` field: missing or `null` gives the `None` default. -/
def asOptInt : Option Json → Except PyErr (Option Int)
  | none => .ok none
  | some .null => .ok none
  | some (.num q) =>
    if q.den = 1 then .ok (some q.num) else .error .validationError
  | some _ => .error .validationError

/-- Required `datetime` field: a string (format abstracted) or an
integral number (epoch), kept in its printed form. -/
def asDatetime : Option Json → Except PyErr String
  | some (.str s) => .ok s
  | some (.num q) =>
    if q.den = 1 then .ok (toString q.num) else .error .validationError
  | _ => .error .validationError

/-- A `Literal[lit]` discriminator field; `hasDefault` tells whether the
model declares `= lit` (so a missing field is filled by the default). -/
def litField (kvs : JsonFields) (name lit : String)
    (hasDefault : Bool) : Except PyErr Unit :=
  match kvs.lookup name with
  | none => if hasDefault then .ok () else .error .validationError
  | some (.str s) => if s == lit then .ok () else .error .validationError
  | some _ => .error .validationError

/-- `Word.model_validate`. -/
def Word.model_validate : Json → Except PyErr Word
  | .obj kvs => do
    let s ← asInt (kvs.lookup "start")
    let e ← asInt (kvs.lookup "end")
    let c ← asNum (kvs.lookup "confidence")
    let t ← asStr (kvs.lookup "text")
    let f ← asBool (kvs.lookup "word_is_final")
    .ok ⟨s, e, c, t, f⟩
  | _ => .error .validationError

/-- Validation of the `words` array, element by element. -/
def validateWords : JsonList → Except PyErr (List Word)
  | .nil => .ok []
  | .cons hd tl => do
    let w ← Word.model_validate hd
    let ws ← validateWords tl
    .ok (w :: ws)

/-- `TurnEvent.model_validate` (its `type` literal has no default). -/
def TurnEvent.model_validate : Json → Except PyErr TurnEvent
  | .obj kvs => do
    let _ ← litField kvs "type" "Turn" false
    let o ← asInt (kvs.lookup "turn_order")
    let fm ← asBool (kvs.lookup "turn_is_formatted")
    let eot ← asBool (kvs.lookup "end_of_turn")
    let tr ← asStr (kvs.lookup "transcript")
    let c ← asNum (kvs.lookup "end_of_turn_confidence")
    match kvs.lookup "words" with
    | some (.arr ws) => do
      let words ← validateWords ws
      .ok ⟨o, fm, eot, tr, c, words⟩
    | _ => .error .validationError
  | _ => .error .validationError

/-- `BeginEvent.model_validate` (its `type` literal defaults to
`"Begin"`). -/
def BeginEvent.model_validate : Json → Except PyErr BeginEvent
  | .obj kvs => do
    let _ ← litField kvs "type" "Begin" true
    let i ← asStr (kvs.lookup "id")
    let x ← asDatetime (kvs.lookup "expires_at")
    .ok ⟨i, x⟩
  | _ => .error .validationError

/-- `TerminationEvent.model_validate` (optional duration fields). -/
def TerminationEvent.model_validate : Json → Except PyErr TerminationEvent
  | .obj kvs => do
    let _ ← litField kvs "type" "Termination" true
    let a ← asOptInt (kvs.lookup "audio_duration_seconds")
    let s ← asOptInt (kvs.lookup "session_duration_seconds")
    .ok ⟨a, s⟩
  | _ => .error .validationError

/-- `ErrorEvent.model_validate`: the `error` field must be a string. -/
def ErrorEvent.model_validate : Json → Except PyErr ErrorEvent
  | .obj kvs => do
    let e ← asStr (kvs.lookup "error")
    .ok ⟨e⟩
  | _ => .error .validationError

/-! ## The codec of `client.py`: `_parse_event_type` and `_parse_message` -/

/-- The `StreamingEvents` enum from `models.py`. -/
inductive StreamingEvents where
  | Begin
  | Termination
  | Turn
  | Error
  deriving DecidableEq, Repr

/-- Python `StreamingEvents[name]` (lookup by member name), as an
`Option` (the source catches the `KeyError` where it can occur). -/
def streamingEventsByName (name : String) : Option StreamingEvents :=
  if name == "Begin" then some .Begin
  else if name == "Termination" then some .Termination
  else if name == "Turn" then some .Turn
  else if name == "Error" then some .Error
  else none

/-- `StreamingClient._parse_event_type`: non-strings give `None`, strings
are looked up among the enum member names (`KeyError` gives `None`). -/
def parse_event_type : Option Json → Option StreamingEvents
  | some (.str s) => streamingEventsByName s
  | _ => none

/-- `StreamingClient._parse_message`.  The `"type"` key is tested first;
only in its absence is the `"error"` key tested.  A recognized type is
validated strictly (a pydantic `ValidationError` propagates as
`Except.error`); an unrecognized or unusable type yields `none`, the
"unrecognized" sentinel (`return None` in the source). -/
def parse_message (data : Json) : Except PyErr (Option EventMessage) :=
  match pyContains data "type" with
  | .error e => .error e
  | .ok true =>
    match pyGet data "type" with
    | .error e => .error e
    | .ok mt =>
      match parse_event_type mt with
      | some .Begin =>
        match BeginEvent.model_validate data with
        | .error e => .error e
        | .ok ev => .ok (some (.begin ev))
      | some .Termination =>
        match TerminationEvent.model_validate data with
        | .error e => .error e
        | .ok ev => .ok (some (.termination ev))
      | some .Turn =>
        match TurnEvent.model_validate data with
        | .error e => .error e
        | .ok ev => .ok (some (.turn ev))
      | _ => .ok none
  | .ok false =>
    match pyContains data "error" with
    | .error e => .error e
    | .ok true =>
      match ErrorEvent.model_validate data with
      | .error e => .error e
      | .ok ev => .ok (some (.error ev))
    | .ok false => .ok none

/-! ## The shared error path: `_parse_error` and `_handle_error` -/

/-- `StreamingError` from `models.py`: message and optional close code. -/
structure StreamingError where
  message : String
  code : Option Nat
  deriving DecidableEq, Repr

/-- The `StreamingErrorCodes` dict from `models.py`, verbatim. -/
def streamingErrorCodes : List (Nat × String) :=
  [(4000, "Sample rate must be a positive integer"),
   (4001, "Not Authorized"),
   (4002, "Insufficient Funds"),
   (4003, "This feature is paid-only and requires you to add a credit card.\n    Please visit https://app.assemblyai.com/ to add a credit card to your account"),
   (4004, "Session Not Found"),
   (4008, "Session Expired"),
   (4010, "Session Previously Closed"),
   (4029, "Client sent audio too fast"),
   (4030, "Session is handled by another websocket"),
   (4031, "Session idle for too long"),
   (4032, "Audio duration is too short"),
   (4033, "Audio duration is too long"),
   (4034, "Audio too small to transcode"),
   (4100, "Endpoint received invalid JSON"),
   (4101, "Endpoint received a message with an invalid schema"),
   (4102, "This account has exceeded the number of allowed streams"),
   (4103, "The session has been reconnected. This websocket is no longer valid."),
   (1013, "Temporary server condition forced blocking client\x27s request")]

/-- Python `StreamingErrorCodes[code]` as an `Option`. -/
def errorCodeMessage (code : Nat) : Option String :=
  (streamingErrorCodes.find? (fun p => p.1 == code)).map (fun p => p.2)

/-- Abstraction of Python `str(exc)` for a `ConnectionClosed` exception
(the exact rendering by the websockets library is immaterial here). -/
def closedExcStr (code : Nat) (reason : String) : String :=
  "ConnectionClosed(" ++ toString code ++ ", " ++ reason ++ ")"

/-- `StreamingClient._parse_error` on a `ConnectionClosed` exception:
codes in `4000..4999` that are in the table map to the table message,
all other codes use the raw close reason; any code other than `1000`
returns that message with the code, while code `1000` falls through to
the final `Unknown error` return (with `code=None`). -/
def parse_error_closed (code : Nat) (reason : String) : StreamingError :=
  let msg :=
    if 4000 ≤ code ∧ code ≤ 4999 ∧ (errorCodeMessage code).isSome then
      (errorCodeMessage code).getD reason
    else reason
  if code ≠ 1000 then ⟨msg, some code⟩
  else ⟨"Unknown error: " ++ closedExcStr code reason, none⟩

/-- `StreamingClient._parse_error` on a remote `ErrorEvent`. -/
def parse_error_event (ev : ErrorEvent) : StreamingError :=
  ⟨ev.error, none⟩

/-! ## Session state, dispatch table, outbound queue -/

/-- Raw audio bytes (content abstracted to a list of byte values). -/
def Bytes := List Nat
  deriving DecidableEq, Repr

/-- `StreamingSessionParameters` from `models.py`. -/
structure StreamingSessionParameters where
  end_of_turn_confidence_threshold : Option Rat
  min_end_of_turn_silence_when_confident : Option Int
  max_turn_silence : Option Int
  format_turns : Option Bool
  deriving DecidableEq, Repr

/-- The outbound control messages (`BaseModel` subclasses sent as JSON
text frames: `TerminateSession`, `ForceEndpoint`, `UpdateConfiguration`). -/
inductive ControlMessage where
  | terminateSession
  | forceEndpoint
  | updateConfiguration (p : StreamingSessionParameters)
  deriving DecidableEq, Repr

/-- An item of the outbound queue.  `audio` is a `bytes` object, `msg` a
`BaseModel`; `other` stands for any object of another runtime type (its
`tag` abstracts the rendering of `type(data)`), which the queue's type
annotation excludes but Python does not enforce. -/
inductive OperationMessage where
  | audio (b : Bytes)
  | msg (m : ControlMessage)
  | other (tag : String)
  deriving DecidableEq, Repr

/-- A frame as given to `websocket.send`: `bytes` go out as a binary
frame, a `BaseModel` is serialized (`_dump_model_json`) into a text
frame — the frame keeps the model, standing for its JSON rendering. -/
inductive Frame where
  | binary (b : Bytes)
  | text (m : ControlMessage)
  deriving DecidableEq, Repr

/-- The dispatch table `_handlers`: one ordered list of registered
handler callbacks (identified by numbers) per `StreamingEvents` kind. -/
structure HandlerTable where
  onBegin : List Nat
  onTermination : List Nat
  onTurn : List Nat
  onError : List Nat
  deriving DecidableEq, Repr

/-- `self._handlers[event]`. -/
def HandlerTable.get (t : HandlerTable) : StreamingEvents → List Nat
  | .Begin => t.onBegin
  | .Termination => t.onTermination
  | .Turn => t.onTurn
  | .Error => t.onError

/-- The mutable state of a `StreamingClient` session: the stop flag
(`_stop_event`), the outbound queue (`_write_queue`, front = next to
dequeue), the dispatch table, whether `self._websocket` was assigned by
`connect` and whether that socket is still open, and whether the two
pump threads were started. -/
structure SessionState where
  stop : Bool
  queue : List OperationMessage
  handlers : HandlerTable
  websocketSet : Bool
  websocketOpen : Bool
  readThreadStarted : Bool
  writeThreadStarted : Bool
  deriving DecidableEq, Repr

/-- An invocation of an event handler: which handler, with which message,
and the value of the stop flag at the moment of the call. -/
structure EventCall where
  handler : Nat
  message : EventMessage
  stopSeen : Bool
  deriving DecidableEq, Repr

/-- A callback crossing the session boundary: an event-handler call or
an error-handler call (with the normalized `StreamingError`). -/
inductive Call where
  | ev (c : EventCall)
  | er (handler : Nat) (e : StreamingError)
  deriving DecidableEq, Repr

/-- The error-handler invocations `_handle_error` performs: every
handler registered for `StreamingEvents.Error`, in registration order,
with the normalized error.  The `self.disconnect()` it then performs
does not change the session state when called from a pump thread: with
`terminate=False` nothing is enqueued, and `join()` on the current
thread raises `RuntimeError`, which the bare `except` swallows before
the socket close is reached. -/
def errorCalls (s : SessionState) (e : StreamingError) : List Call :=
  s.handlers.onError.map (fun h => .er h e)

/-! ## `_handle_message` and the inbound pump `_read_message` -/

/-- Whether a message is a `TerminationEvent` (`isinstance` test). -/
def EventMessage.isTermination : EventMessage → Bool
  | .termination _ => true
  | _ => false

/-- Python attribute `message.type` on an `EventMessage`: the literal
discriminator for the three typed events; `ErrorEvent` has no `type`
field, so the access raises `AttributeError`. -/
def EventMessage.typeAttr : EventMessage → Except PyErr String
  | .begin _ => .ok "Begin"
  | .termination _ => .ok "Termination"
  | .turn _ => .ok "Turn"
  | .error _ => .error .attributeError

/-- `StreamingClient._handle_message`: set the stop flag first when the
message is a `TerminationEvent`, then dispatch to the handlers
registered for `StreamingEvents[message.type]`, in registration order
(a failing enum lookup would raise `KeyError`). -/
def handle_message (s : SessionState) (m : EventMessage) :
    Except PyErr (SessionState × List EventCall) :=
  let s1 := if m.isTermination then { s with stop := true } else s
  match m.typeAttr with
  | .error e => .error e
  | .ok tname =>
    match streamingEventsByName tname with
    | none => .error .keyError
    | some ek =>
      .ok (s1, (s1.handlers.get ek).map (fun h => ⟨h, m, s1.stop⟩))

/-- What one blocking `websocket.recv(timeout=1)` call of the inbound
pump produced: a timeout, a `ConnectionClosed` exception, or a text
frame — already split by whether `json.loads` accepts it. -/
inductive RecvResult where
  | timeout
  | closed (code : Nat) (reason : String)
  | frameInvalidJson
  | frameJson (j : Json)
  deriving DecidableEq, Repr

/-- How one loop iteration of a pump ends: fall through to the next
iteration, leave via `return`, or die on an uncaught exception. -/
inductive StepOutcome where
  | next
  | ret
  | crash (e : PyErr)
  deriving DecidableEq, Repr

/-- The full effect of one inbound-pump iteration. -/
structure StepResult where
  state : SessionState
  calls : List Call
  outcome : StepOutcome
  deriving DecidableEq, Repr

/-- One iteration of the `_read_message` loop body (the `while` guard is
in `readRun` below): the missing-websocket guard, the `recv` outcomes,
`json.loads` failure (logged, `continue`), `_parse_message` (whose
exceptions are uncaught), the `ErrorEvent` route through
`_handle_error` (which does NOT `return`), `_handle_message` for
recognized events, and the unsupported-event log line, whose f-string
subscript `message_json["type"]` is evaluated and may itself raise. -/
def readStep (s : SessionState) (r : RecvResult) : StepResult :=
  if !s.websocketSet then
    ⟨s, [], .crash (.valueError "Not connected to the WebSocket server")⟩
  else
    match r with
    | .timeout => ⟨s, [], .next⟩
    | .closed code reason =>
      ⟨s, errorCalls s (parse_error_closed code reason), .ret⟩
    | .frameInvalidJson => ⟨s, [], .next⟩
    | .frameJson j =>
      match parse_message j with
      | .error e => ⟨s, [], .crash e⟩
      | .ok (some (.error ev)) =>
        ⟨s, errorCalls s (parse_error_event ev), .next⟩
      | .ok (some m) =>
        match handle_message s m with
        | .ok (s1, ecalls) => ⟨s1, ecalls.map .ev, .next⟩
        | .error e => ⟨s, [], .crash e⟩
      | .ok none =>
        match pyIndex j "type" with
        | .ok _ => ⟨s, [], .next⟩
        | .error e => ⟨s, [], .crash e⟩

/-- How a whole pump-loop run ended. -/
inductive RunEnd where
  | inputExhausted
  | stopFlagExit
  | returned
  | crashed (e : PyErr)
  deriving DecidableEq, Repr

/-- The `_read_message` loop over a finite sequence of `recv` outcomes:
the stop flag is re-checked before every iteration; `.ret` leaves the
thread normally, an uncaught exception kills it. -/
def readRun (s : SessionState) : List RecvResult → SessionState × List Call × RunEnd
  | [] => (s, [], .inputExhausted)
  | r :: rs =>
    if s.stop then (s, [], .stopFlagExit)
    else
      let st := readStep s r
      match st.outcome with
      | .next =>
        let (s', cs, e) := readRun st.state rs
        (s', st.calls ++ cs, e)
      | .ret => (st.state, st.calls, .returned)
      | .crash e => (st.state, st.calls, .crashed e)

/-! ## `stream`, `disconnect` and the outbound pump `_write_message` -/

/-- `StreamingClient.stream` on a single `bytes` chunk: one
`_write_queue.put`. -/
def streamChunk (q : List OperationMessage) (b : Bytes) : List OperationMessage :=
  q ++ [.audio b]

/-- `StreamingClient.stream` on an iterable: one `put` per chunk, in
iteration order (also what N successive `stream(bytes)` calls do). -/
def streamAll (q : List OperationMessage) (chunks : List Bytes) : List OperationMessage :=
  chunks.foldl streamChunk q

/-- The `try` body of `disconnect`: join the read thread, join the write
thread (`RuntimeError` when a thread was never started), then
`if self._websocket:` (an `AttributeError` when the attribute was never
assigned) and `close()`.  Joining an already-terminated thread and
closing an already-closed socket are no-ops. -/
def disconnectTryBody (s : SessionState) : Except PyErr SessionState :=
  if !s.readThreadStarted then .error .runtimeError
  else if !s.writeThreadStarted then .error .runtimeError
  else if !s.websocketSet then .error .attributeError
  else .ok { s with websocketOpen := false }

/-- `StreamingClient.disconnect` called from the caller's thread: when
`terminate` is requested and the stop flag is not set, enqueue a
`TerminateSession` message as the last queue item; then the `try` body,
whose every exception the bare `except` swallows.  The second component
is the exception propagated to the caller — by the source's structure
there is none. -/
def disconnect (s : SessionState) (terminate : Bool) : SessionState × Option PyErr :=
  let s1 :=
    if terminate && !s.stop then
      { s with queue := s.queue ++ [.msg .terminateSession] }
    else s
  let s2 :=
    match disconnectTryBody s1 with
    | .ok s2 => s2
    | .error _ => s1
  (s2, none)

/-- `_write_message` branch on one dequeued item: `bytes` are sent as a
binary frame, a `BaseModel` is serialized and sent as a text frame, and
anything else raises a `ValueError` naming the runtime type — which the
surrounding `except websockets.exceptions.ConnectionClosed` does not
catch. -/
def sendFrame : OperationMessage → Option Frame
  | .audio b => some (.binary b)
  | .msg m => some (.text m)
  | .other _ => none

/-- The `_write_message` loop draining a queue, for executions in which
the stop flag stays unset and the socket stays open (the
`ConnectionClosed` send failures go through `_handle_error`, not
modelled here; no claim below needs them).  Returns the frames written
to the socket in order, and the uncaught exception that killed the
pump thread, if any: the `ValueError` raised for an item that is
neither `bytes` nor a `BaseModel` propagates out of the loop, so
nothing after such an item is sent. -/
def writeRun : List OperationMessage → List Frame × Option PyErr
  | [] => ([], none)
  | item :: rest =>
    match sendFrame item with
    | some f =>
      let (fs, e) := writeRun rest
      (f :: fs, e)
    | none =>
      ([], some (.valueError ("Attempted to send invalid message: " ++
        (match item with | .other tag => tag | _ => ""))))

/-! ## `connect` -/

/-- What the `websocket_connect(...)` call did: succeeded, or raised.
`ConnectionClosed` is the only exception type `connect` catches; a
handshake open-timeout raises `TimeoutError`, a TLS failure an
`OSError`, a rejected upgrade an `InvalidHandshake` error — all
uncaught. -/
inductive OpenResult where
  | opened
  | closedExc (code : Nat) (reason : String)
  | timeoutExc
  | tlsExc
  | rejectedUpgrade
  deriving DecidableEq, Repr

/-- The observable outcome of a `connect` call: the session state, the
callbacks invoked during it, and the exception propagated to the
caller, if any. -/
structure ConnectResult where
  state : SessionState
  calls : List Call
  raised : Option PyErr
  deriving DecidableEq, Repr

/-- `StreamingClient.connect`: on success assign `self._websocket` and
start the write and read pump threads; on `ConnectionClosed` run
`_handle_error` (error-handler callbacks; its `disconnect()` joins
never-started threads, raising a swallowed `RuntimeError`, so the state
is unchanged) and `return`; any other exception of the socket open
propagates to the caller. -/
def connect (s : SessionState) (r : OpenResult) : ConnectResult :=
  match r with
  | .opened =>
    ⟨{ s with websocketSet := true, websocketOpen := true,
              writeThreadStarted := true, readThreadStarted := true },
     [], none⟩
  | .closedExc code reason =>
    ⟨s, errorCalls s (parse_error_closed code reason), none⟩
  | .timeoutExc => ⟨s, [], some .timeoutError⟩
  | .tlsExc => ⟨s, [], some .osError⟩
  | .rejectedUpgrade => ⟨s, [], some .invalidHandshake⟩

/-! ## Helper lemmas -/

/-- Monadic bind on `Except`, successful case. -/
theorem exceptBind_ok {ε α β : Type} (a : α) (f : α → Except ε β) :
    (Except.ok (ε := ε) a >>= f) = f a := rfl

/-- Monadic bind on `Except`, propagating case. -/
theorem exceptBind_error {ε α β : Type} (e : ε) (f : α → Except ε β) :
    (Except.error (α := α) e >>= f) = .error e := rfl

/-- A successful dict lookup implies key membership. -/
theorem JsonFields.hasKey_of_lookup {k : String} {v : Json} :
    ∀ (kvs : JsonFields), kvs.lookup k = some v → kvs.hasKey k = true
  | .nil, h => by simp [JsonFields.lookup] at h
  | .cons key val tl, h => by
    by_cases hk : (key == k) = true
    · simp [JsonFields.hasKey, hk]
    · simp only [JsonFields.lookup, hk, if_false, Bool.false_eq_true, ite_false] at h
      simp [JsonFields.hasKey, hk, JsonFields.hasKey_of_lookup tl h]

/-- N `stream` calls enqueue the N chunks at the back, in call order. -/
theorem streamAll_eq (q : List OperationMessage) (chunks : List Bytes) :
    streamAll q chunks = q ++ chunks.map OperationMessage.audio := by
  induction chunks generalizing q with
  | nil => simp [streamAll]
  | cons c cs ih =>
    show streamAll (streamChunk q c) cs = _
    rw [ih]
    simp [streamChunk]

/-- The outbound pump drains a queue of `bytes` and `BaseModel` items
completely, sending one frame per item in queue order. -/
theorem writeRun_all_sendable (q : List OperationMessage)
    (h : ∀ i ∈ q, (sendFrame i).isSome) :
    writeRun q = (q.filterMap sendFrame, none) := by
  induction q with
  | nil => rfl
  | cons item rest ih =>
    have hitem : (sendFrame item).isSome := h item (by simp)
    have hrest : ∀ i ∈ rest, (sendFrame i).isSome := fun i hi => h i (by simp [hi])
    match hf : sendFrame item with
    | some f => simp [writeRun, hf, ih hrest]
    | none => simp [hf] at hitem

/-- The outbound pump sends everything before an item of invalid type and
then dies on the uncaught `ValueError`: nothing after it is sent. -/
theorem writeRun_stops_at_invalid (pre : List OperationMessage) (tag : String)
    (post : List OperationMessage) (h : ∀ i ∈ pre, (sendFrame i).isSome) :
    writeRun (pre ++ .other tag :: post)
      = (pre.filterMap sendFrame,
         some (.valueError ("Attempted to send invalid message: " ++ tag))) := by
  induction pre with
  | nil => simp [writeRun, sendFrame]
  | cons item rest ih =>
    have hitem : (sendFrame item).isSome := h item (by simp)
    have hrest : ∀ i ∈ rest, (sendFrame i).isSome := fun i hi => h i (by simp [hi])
    match hf : sendFrame item with
    | some f => simp [writeRun, hf, ih hrest]
    | none => simp [hf] at hitem

/-- The exception `disconnect` propagates to its caller: none, ever (the
bare `except Exception: pass` swallows everything the `try` can raise). -/
theorem disconnect_snd (s : SessionState) (t : Bool) : (disconnect s t).2 = none := rfl

/-- Closed form of the state `disconnect` leaves behind. -/
theorem disconnect_fst (s : SessionState) (t : Bool) :
    (disconnect s t).1 =
      (let s1 := if t && !s.stop then
          { s with queue := s.queue ++ [.msg .terminateSession] } else s
       if s1.readThreadStarted && s1.writeThreadStarted && s1.websocketSet then
         { s1 with websocketOpen := false } else s1) := by
  simp only [disconnect, disconnectTryBody]
  by_cases h1 : (t && !s.stop) = true <;>
    by_cases h2 : s.readThreadStarted = true <;>
      by_cases h3 : s.writeThreadStarted = true <;>
        by_cases h4 : s.websocketSet = true <;>
          simp [h1, h2, h3, h4]

/-! ## Concrete session states and frames used by witnesses -/

/-- A connected session with one handler registered per event kind. -/
def sampleState : SessionState :=
  { stop := false, queue := [],
    handlers := ⟨[1], [2], [3], [4]⟩,
    websocketSet := true, websocketOpen := true,
    readThreadStarted := true, writeThreadStarted := true }

/-- A freshly constructed, never-connected session with one registered
error handler. -/
def freshState : SessionState :=
  { stop := false, queue := [],
    handlers := ⟨[], [], [], [9]⟩,
    websocketSet := false, websocketOpen := false,
    readThreadStarted := false, writeThreadStarted := false }

/-- A decoded `Turn` frame with all required fields. -/
def turnFrameJson : Json :=
  .obj (.cons "type" (.str "Turn") (.cons "turn_order" (.num 0)
    (.cons "turn_is_formatted" (.bool false) (.cons "end_of_turn" (.bool false)
    (.cons "transcript" (.str "hello") (.cons "end_of_turn_confidence" (.num 1)
    (.cons "words" (.arr .nil) .nil)))))))

/-! ## The claims -/

/-- C1: on a connected session with an empty outbound queue and the stop
flag unset, N `stream(chunk_i)` calls followed by
`disconnect(terminate=True)` leave the FIFO queue holding the N audio
chunks in call order with the `Terminate` control message enqueued last,
and the outbound pump writes exactly the N chunks as binary frames in
order 1..N followed by the `Terminate` text frame after all of them,
with no reordering and no exception. -/
theorem outbound_fifo_terminate_last (chunks : List Bytes) (s : SessionState)
    (hstop : s.stop = false) (hq : s.queue = []) :
    (disconnect { s with queue := streamAll s.queue chunks } true).1.queue
        = chunks.map OperationMessage.audio ++ [.msg .terminateSession] ∧
    writeRun ((disconnect { s with queue := streamAll s.queue chunks } true).1.queue)
        = (chunks.map Frame.binary ++ [Frame.text .terminateSession], none) := by
  have hqueue : (disconnect { s with queue := streamAll s.queue chunks } true).1.queue
      = chunks.map OperationMessage.audio ++ [.msg .terminateSession] := by
    rw [disconnect_fst]
    by_cases h2 : s.readThreadStarted = true <;>
      by_cases h3 : s.writeThreadStarted = true <;>
        by_cases h4 : s.websocketSet = true <;>
          simp [hstop, h2, h3, h4, streamAll_eq, hq]
  refine ⟨hqueue, ?_⟩
  rw [hqueue]
  have hsend : ∀ i ∈ chunks.map OperationMessage.audio ++
      [OperationMessage.msg ControlMessage.terminateSession], (sendFrame i).isSome := by
    intro i hi
    rcases List.mem_append.1 hi with hmem | hmem
    · obtain ⟨b, _, rfl⟩ := List.mem_map.1 hmem
      rfl
    · simp only [List.mem_singleton] at hmem
      subst hmem
      rfl
  rw [writeRun_all_sendable _ hsend]
  rw [List.filterMap_append, List.filterMap_map]
  simp only [sendFrame, Function.comp_def, List.filterMap_cons, List.filterMap_nil]
  rw [show (fun x => some (Frame.binary x)) = some ∘ Frame.binary from rfl,
    List.filterMap_eq_map]

/-- C1 witness: two concrete chunks through `sampleState`. -/
theorem outbound_fifo_terminate_last_witness :
    (disconnect { sampleState with queue := streamAll sampleState.queue [[1, 2], [3]] } true).1.queue
        = [[1, 2], [3]].map OperationMessage.audio ++ [.msg .terminateSession] ∧
    writeRun ((disconnect { sampleState with
        queue := streamAll sampleState.queue [[1, 2], [3]] } true).1.queue)
        = ([[1, 2], [3]].map Frame.binary ++ [Frame.text .terminateSession], none) :=
  outbound_fifo_terminate_last [[1, 2], [3]] sampleState rfl rfl

/-- C3: `_handle_message` on a `TerminationEvent` sets the stop flag
strictly before dispatching, so every handler invocation for the
Termination event kind observes the stop flag set (`stopSeen = true`),
and the handlers invoked are exactly those registered for Termination,
in registration order. -/
theorem termination_sets_stop_before_dispatch (s : SessionState) (ev : TerminationEvent) :
    handle_message s (.termination ev)
      = .ok ({ s with stop := true },
             s.handlers.onTermination.map (fun h => ⟨h, .termination ev, true⟩)) := rfl

/-- C6: an inbound text frame that is not valid JSON makes the pump log
and fall through: no exception, no handler call (neither event nor
error handlers), the session state (stop flag included) unchanged, and
the rest of the input stream is processed exactly as if the bad frame
had never arrived. -/
theorem invalid_json_frame_ignored (s : SessionState) (rest : List RecvResult)
    (hws : s.websocketSet = true) (hstop : s.stop = false) :
    readStep s .frameInvalidJson = ⟨s, [], .next⟩ ∧
    readRun s (.frameInvalidJson :: rest) = readRun s rest := by
  have hstep : readStep s .frameInvalidJson = ⟨s, [], .next⟩ := by
    simp [readStep, hws]
  refine ⟨hstep, ?_⟩
  rcases hr : readRun s rest with ⟨s', cs, e⟩
  simp [readRun, hstop, hstep, hr]

/-- C6 witness: a malformed frame followed by a valid Turn frame. -/
theorem invalid_json_frame_ignored_witness :
    readStep sampleState .frameInvalidJson = ⟨sampleState, [], .next⟩ ∧
    readRun sampleState [.frameInvalidJson, .frameJson turnFrameJson]
      = readRun sampleState [.frameJson turnFrameJson] :=
  invalid_json_frame_ignored sampleState [.frameJson turnFrameJson] rfl rfl

/-- C8: `disconnect` never propagates an exception to its caller, and a
second `disconnect()` call (its `terminate` parameter defaults to
`False`) leaves the session state exactly as the first call left it —
the repeated joins and the repeated socket close are no-ops. -/
theorem disconnect_twice_idempotent (s : SessionState) (t : Bool) :
    (disconnect s t).2 = none ∧
    (disconnect (disconnect s t).1 false).2 = none ∧
    (disconnect (disconnect s t).1 false).1 = (disconnect s t).1 := by
  refine ⟨disconnect_snd s t, disconnect_snd _ false, ?_⟩
  by_cases h1 : (t && !s.stop) = true <;>
    by_cases h2 : s.readThreadStarted = true <;>
      by_cases h3 : s.writeThreadStarted = true <;>
        by_cases h4 : s.websocketSet = true <;>
          simp [disconnect, disconnectTryBody, h1, h2, h3, h4]

/-- C2: evaluation of the shared error path at the failing inputs.  A
connection closed with the normal-closure code 1000 still invokes every
registered error handler — `_parse_error`'s `if error.code != 1000`
guard merely falls through to the generic `Unknown error` return, and
`_handle_error` dispatches unconditionally — contradicting the claim
that code 1000 invokes no handler.  Also, code 1013 is in the
`StreamingErrorCodes` table, yet the `4000 <= code <= 4999` guard
excludes it, so its handler gets the raw close reason instead of the
mapped message. -/
theorem close_code_1000_still_invokes_error_handlers :
    readStep sampleState (.closed 1000 "")
      = ⟨sampleState,
         [.er 4 ⟨"Unknown error: ConnectionClosed(1000, )", none⟩], .ret⟩ ∧
    parse_error_closed 1013 "raw reason" = ⟨"raw reason", some 1013⟩ ∧
    errorCodeMessage 1013
      = some "Temporary server condition forced blocking client\x27s request" ∧
    parse_error_closed 4001 "ignored" = ⟨"Not Authorized", some 4001⟩ := by
  refine ⟨?_, ?_, ?_, ?_⟩ <;> decide

/-- C5: evaluation of `connect` at the failing inputs.  `connect` catches
only `websockets.exceptions.ConnectionClosed`; an open-timeout
(`TimeoutError`), a TLS failure (`OSError`) or a rejected upgrade
(`InvalidHandshake`) propagates to the caller with no error-handler
invocation — contradicting the claim that transport failures during
connect never raise and are reported through the error callback.  The
pumps are indeed never started and `_websocket` stays absent in every
failure case; the `ConnectionClosed` case alone is routed to the
handlers. -/
theorem connect_transport_failure_propagates :
    connect freshState .timeoutExc = ⟨freshState, [], some .timeoutError⟩ ∧
    connect freshState .tlsExc = ⟨freshState, [], some .osError⟩ ∧
    connect freshState .rejectedUpgrade = ⟨freshState, [], some .invalidHandshake⟩ ∧
    connect freshState (.closedExc 1006 "abnormal closure")
      = ⟨freshState, [.er 9 ⟨"abnormal closure", some 1006⟩], none⟩ := by
  refine ⟨?_, ?_, ?_, ?_⟩ <;> decide

/-- C7: evaluation of the inbound pump at the failing input.  A valid
JSON frame missing both the `type` and the `error` key (here `{}`)
reaches the unsupported-event log line, whose f-string subscript
`message_json["type"]` raises `KeyError`: the pump thread dies instead
of logging and continuing, and a valid Turn frame behind it is never
processed.  A frame whose `type` value is merely unknown (here
`{"type": "Bogus"}`) does behave as claimed: logged and dropped, no
handler call, loop continues. -/
theorem missing_type_key_crashes_pump :
    readStep sampleState (.frameJson (.obj .nil))
      = ⟨sampleState, [], .crash .keyError⟩ ∧
    readRun sampleState [.frameJson (.obj .nil), .frameJson turnFrameJson]
      = (sampleState, [], .crashed .keyError) ∧
    readStep sampleState (.frameJson (.obj (.cons "type" (.str "Bogus") .nil)))
      = ⟨sampleState, [], .next⟩ := by
  refine ⟨?_, ?_, ?_⟩ <;> decide

/-- Whether a codec result is classified as an error event (routed to
`_handle_error` by the inbound pump). -/
def isErrorEventResult : Except PyErr (Option EventMessage) → Bool
  | .ok (some (.error _)) => true
  | _ => false

/-- A frame holding both a recognized `type` key and an `error` key. -/
def typeAndErrorFrame : Json :=
  .obj (.cons "type" (.str "Termination") (.cons "error" (.str "boom") .nil))

/-- C4 counterexample: a frame carrying both a recognized `type` key and
an `error` key is parsed as the typed event (`TerminationEvent` here),
not as an error event — the `"type" in data` branch runs first and the
`error` key is ignored, refuting "error event regardless of other
keys". -/
theorem type_key_beats_error_key_cex :
    parse_message typeAndErrorFrame = .ok (some (.termination ⟨none, none⟩)) ∧
    isErrorEventResult (parse_message typeAndErrorFrame) = false :=
  ⟨rfl, rfl⟩

/-- C4 amended: a frame whose JSON contains an `error` key (with a
string value) is classified as an error event exactly when it has no
`type` key; when a `type` key is present, the type branch takes
precedence and the result is never an error event. -/
theorem error_key_classifies_only_without_type (kvs : JsonFields) (m : String)
    (herr : kvs.lookup "error" = some (.str m)) :
    (kvs.hasKey "type" = false →
      parse_message (.obj kvs) = .ok (some (.error ⟨m⟩))) ∧
    (kvs.hasKey "type" = true →
      isErrorEventResult (parse_message (.obj kvs)) = false) := by
  constructor
  · intro htype
    have herrKey : kvs.hasKey "error" = true := JsonFields.hasKey_of_lookup kvs herr
    simp [parse_message, pyContains, htype, herrKey, ErrorEvent.model_validate,
      asStr, herr, exceptBind_ok, exceptBind_error]
  · intro htype
    simp only [parse_message, pyContains, htype, pyGet]
    cases hpe : parse_event_type (kvs.lookup "type") with
    | none => simp [isErrorEventResult]
    | some k =>
      cases k with
      | Begin =>
        cases hv : BeginEvent.model_validate (.obj kvs) <;>
          simp [isErrorEventResult, hv]
      | Termination =>
        cases hv : TerminationEvent.model_validate (.obj kvs) <;>
          simp [isErrorEventResult, hv]
      | Turn =>
        cases hv : TurnEvent.model_validate (.obj kvs) <;>
          simp [isErrorEventResult, hv]
      | Error => simp [isErrorEventResult]

/-- C4 amended witness: a pure error frame is classified as an error
event; the same theorem applied at a concrete input. -/
theorem error_key_classifies_only_without_type_witness :
    (JsonFields.hasKey (.cons "error" (.str "boom") .nil) "type" = false →
      parse_message (.obj (.cons "error" (.str "boom") .nil))
        = .ok (some (.error ⟨"boom"⟩))) ∧
    (JsonFields.hasKey (.cons "error" (.str "boom") .nil) "type" = true →
      isErrorEventResult (parse_message (.obj (.cons "error" (.str "boom") .nil)))
        = false) :=
  error_key_classifies_only_without_type (.cons "error" (.str "boom") .nil) "boom" rfl

/-- C9 counterexample: an item that is neither `bytes` nor a `BaseModel`
is not skipped — the `ValueError` is not caught by the
`except ConnectionClosed` clause, the pump dies, and the audio chunk
queued behind the bad item is never sent. -/
theorem invalid_queue_item_kills_write_pump_cex :
    writeRun [.other "int", .audio [0]]
      = ([], some (.valueError "Attempted to send invalid message: int")) := by
  decide

/-- C9 amended: the outbound pump sends raw bytes as binary frames and
structured messages as serialized text frames, one frame per item in
queue order; an item of any other type makes the pump raise a
`ValueError` naming the offending runtime type, which propagates out of
the thread: the pump terminates and the items queued after it are not
sent. -/
theorem write_pump_item_handling :
    (∀ q : List OperationMessage, (∀ i ∈ q, (sendFrame i).isSome) →
        writeRun q = (q.filterMap sendFrame, none)) ∧
    (∀ (pre : List OperationMessage) (tag : String) (post : List OperationMessage),
        (∀ i ∈ pre, (sendFrame i).isSome) →
        writeRun (pre ++ .other tag :: post)
          = (pre.filterMap sendFrame,
             some (.valueError ("Attempted to send invalid message: " ++ tag)))) :=
  ⟨writeRun_all_sendable, writeRun_stops_at_invalid⟩

/-- C9 amended witness: both branches at concrete queues. -/
theorem write_pump_item_handling_witness :
    writeRun [OperationMessage.audio [7], .msg .forceEndpoint]
      = ([Frame.binary [7], Frame.text .forceEndpoint], none) ∧
    writeRun [OperationMessage.audio [7], .other "int", .audio [8]]
      = ([Frame.binary [7]],
         some (.valueError "Attempted to send invalid message: int")) := by
  constructor
  · exact write_pump_item_handling.1 [.audio [7], .msg .forceEndpoint] (by decide)
  · exact write_pump_item_handling.2 [.audio [7]] "int" [.audio [8]] (by decide)

/-- The strict-validation branches of `_parse_message`, one per
recognized event type; the `Error` member never reaches a validation
branch in `_parse_message` (its name falls to the sentinel branch), so
its value here is irrelevant to every use below. -/
def validateFor : StreamingEvents → Json → Except PyErr EventMessage
  | .Begin, j =>
    match BeginEvent.model_validate j with
    | .ok ev => .ok (.begin ev)
    | .error e => .error e
  | .Termination, j =>
    match TerminationEvent.model_validate j with
    | .ok ev => .ok (.termination ev)
    | .error e => .error e
  | .Turn, j =>
    match TurnEvent.model_validate j with
    | .ok ev => .ok (.turn ev)
    | .error e => .error e
  | .Error, _ => .ok (.error ⟨""⟩)

/-- C10: a valid-JSON frame whose `type` value is recognized (Begin,
Termination or Turn) but whose required fields fail strict validation
makes `_parse_message` raise, and nothing in `_read_message` catches
it: the pump thread dies on the exception with no handler invocation
(neither event nor error handlers), the stop flag unchanged, and the
rest of the input stream unprocessed. -/
theorem validation_error_uncaught_kills_read_pump
    (s : SessionState) (kvs : JsonFields) (k : StreamingEvents) (e : PyErr)
    (rest : List RecvResult)
    (hws : s.websocketSet = true) (hstop : s.stop = false)
    (htype : parse_event_type (kvs.lookup "type") = some k)
    (hk : k = .Begin ∨ k = .Termination ∨ k = .Turn)
    (hval : validateFor k (.obj kvs) = .error e) :
    parse_message (.obj kvs) = .error e ∧
    readRun s (.frameJson (.obj kvs) :: rest) = (s, [], .crashed e) := by
  have hpm : parse_message (.obj kvs) = .error e := by
    rcases hlk : kvs.lookup "type" with _ | j
    · rw [hlk] at htype
      simp [parse_event_type] at htype
    · have hasType : kvs.hasKey "type" = true := JsonFields.hasKey_of_lookup kvs hlk
      rw [hlk] at htype
      cases j with
      | str tname =>
        simp only [parse_event_type] at htype
        rcases hk with rfl | rfl | rfl
        · cases hv : BeginEvent.model_validate (.obj kvs) with
          | error e' =>
            have he : e' = e := by simpa [validateFor, hv] using hval
            subst he
            simp [parse_message, pyContains, hasType, pyGet, hlk,
              parse_event_type, htype, hv]
          | ok ev => simp [validateFor, hv] at hval
        · cases hv : TerminationEvent.model_validate (.obj kvs) with
          | error e' =>
            have he : e' = e := by simpa [validateFor, hv] using hval
            subst he
            simp [parse_message, pyContains, hasType, pyGet, hlk,
              parse_event_type, htype, hv]
          | ok ev => simp [validateFor, hv] at hval
        · cases hv : TurnEvent.model_validate (.obj kvs) with
          | error e' =>
            have he : e' = e := by simpa [validateFor, hv] using hval
            subst he
            simp [parse_message, pyContains, hasType, pyGet, hlk,
              parse_event_type, htype, hv]
          | ok ev => simp [validateFor, hv] at hval
      | null => simp [parse_event_type] at htype
      | bool b => simp [parse_event_type] at htype
      | num q => simp [parse_event_type] at htype
      | arr xs => simp [parse_event_type] at htype
      | obj fs => simp [parse_event_type] at htype
  have hstep : readStep s (.frameJson (.obj kvs)) = ⟨s, [], .crash e⟩ := by
    simp [readStep, hws, hpm]
  refine ⟨hpm, ?_⟩
  simp [readRun, hstop, hstep]

/-- C10 witness: `{"type": "Turn"}` (recognized type, required fields
missing) kills the pump with a `ValidationError`. -/
theorem validation_error_uncaught_kills_read_pump_witness :
    parse_message (.obj (.cons "type" (.str "Turn") .nil)) = .error .validationError ∧
    readRun sampleState [.frameJson (.obj (.cons "type" (.str "Turn") .nil))]
      = (sampleState, [], .crashed .validationError) :=
  validation_error_uncaught_kills_read_pump sampleState
    (.cons "type" (.str "Turn") .nil) .Turn .validationError [] rfl rfl
    (by decide) (Or.inr (Or.inr rfl)) rfl

end AaiStreaming
